import Mathlib

/-!
Verification of the refresh/synchronization core of `proc_explorer`.

The definitions below are a shallow embedding of the Python sources:
  - `src/proc_explorer/widgets/process_list.py` (cursor restoration, refresh)
  - `src/proc_explorer/main.py` (the second copy of the process widget)
  - `src/proc_explorer/util.py` (`SharedProcess`, `UndefinedType`)
  - `src/proc_explorer/widgets/open_files.py` (file view refresh loop)

Python exceptions are modelled with `Except PyErr`; machine pids are
arbitrary-precision Python ints, modelled as `Int`.
-/

deriving instance DecidableEq for Except

namespace ProcExplorer

/-- Python exceptions that the embedded code can raise. -/
inductive PyErr
  | typeError        -- e.g. `None - int`
  | noSuchProcess    -- psutil.NoSuchProcess
  | accessDenied     -- psutil.AccessDenied
  | fileNotFound     -- FileNotFoundError from os.stat
  | fuelOut          -- artificial: loop fuel exhausted (never happens with enough fuel)
deriving DecidableEq, Repr

/-! ### Process table and cursor-restoration (`process_list.py` lines 246-284)

A process-table row is represented by its pid (the name/status cells play no
role in the cursor algorithm).  `procPid` embeds the `proc_pid` property:
`row_values` returns `None` when `self.rows` is empty, otherwise the cells of
`get_row_at(self.cursor_row)`. -/

/-- Embeds the `proc_pid` property: `None` when the table is empty, otherwise
the pid at the cursor row. -/
def procPid (rows : List Int) (cursor : Nat) : Option Int :=
  match rows with
  | [] => none
  | _ :: _ => rows.get? cursor

/-- Absolute value as computed inside `__distance_from_pid`:
`distance = proc_pid - pid; if distance < 0: distance *= -1`. -/
def pyAbs (d : Int) : Int :=
  if d < 0 then -d else d

/-- Embeds `__distance_from_pid` (process_list.py lines 246-255): subtracting
`pid` from `self.proc_pid`; when `proc_pid` is `None` this is `None - int`,
a `TypeError`. -/
def distance_from_pid (rows : List Int) (cursor : Nat) (pid : Int) : Except PyErr Int :=
  match procPid rows cursor with
  | none => .error .typeError
  | some c => .ok (pyAbs (c - pid))

/-- One cursor move.  `cursor_coordinate.up()` / `.down()` offsets the row by
one, and the textual `DataTable.move_cursor` call clamps the row into
`[0, row_count - 1]`. -/
def stepRow (rowCount : Nat) (cursor : Nat) (up : Bool) : Nat :=
  if up then cursor - 1 else min (cursor + 1) (rowCount - 1)

/-- The direction test `if self.proc_pid and self.proc_pid > pid` — note the
Python truthiness: pid `0` is falsy, so the cursor moves *down* from a row
whose pid is `0` regardless of the target. -/
def moveUp (c pid : Int) : Bool :=
  (c != 0) && (pid < c)

/-- The `while` loop body of `_move_cursor_to_closet_pid`
(process_list.py lines 263-284), with explicit fuel.  Each iteration:
check `self.proc_pid != pid` (true when `proc_pid` is `None`); compute the
distance (raising `TypeError` on `None`); move one row toward `pid`
(clamped); break — keeping the *new* cursor — when the distance did not
strictly decrease. -/
def moveLoop (rows : List Int) (pid : Int) : Nat → Nat → Except PyErr Nat
  | _cursor, 0 => .error .fuelOut
  | cursor, fuel + 1 =>
    match procPid rows cursor with
    | none => .error .typeError        -- `None != pid` is True; body then crashes
    | some c =>
      if c = pid then .ok cursor       -- loop condition false: stop here
      else
        let d := pyAbs (c - pid)
        let cursor' := stepRow rows.length cursor (moveUp c pid)
        match procPid rows cursor' with
        | none => .error .typeError
        | some c' =>
          let d' := pyAbs (c' - pid)
          if d ≤ d' then .ok cursor'   -- "did not get closer": break AFTER the move
          else moveLoop rows pid cursor' fuel

/-- Enough fuel for the loop: the distance strictly decreases at every
continuing iteration, so `initial distance + 1` iterations suffice. -/
def moveFuel (rows : List Int) (pid : Int) (cursor : Nat) : Nat :=
  match procPid rows cursor with
  | none => 1
  | some c => (pyAbs (c - pid)).toNat + 1

/-- Embeds `_move_cursor_to_closet_pid` (process_list.py lines 257-284): the
hill climb toward `pid`, returning the final cursor row, or the Python
exception it raises. -/
def _move_cursor_to_closet_pid (rows : List Int) (pid : Int) (cursor : Nat) :
    Except PyErr Nat :=
  moveLoop rows pid cursor (moveFuel rows pid cursor)

end ProcExplorer

namespace ProcExplorer

/-! ### Shared selection slot and the `Undefined` sentinel (`util.py`) -/

/-- Values the `SharedProcess.pid` slot can hold: Python `None`, an int pid,
or a decimal string holding an int (which `proc` converts with `int(...)`). -/
inductive SelVal
  | vNone
  | vInt (n : Int)
  | vStr (n : Int)
deriving DecidableEq, Repr

/-- Embeds `SharedProcess.proc` (util.py lines 19-24).  A str pid is first
converted with `int(...)`; an int pid is passed to `psutil.Process(pid=...)`,
whose constructor raises `NoSuchProcess` when no process with that pid is
alive; any other value (`None`) falls through and the property returns
`None`.  `live` is the list of pids of currently running processes. -/
def sharedProcessProc (live : List Int) : SelVal → Except PyErr (Option Int)
  | .vNone => .ok none
  | .vStr n
  | .vInt n => if n ∈ live then .ok (some n) else .error .noSuchProcess

/-- The value of `OpenFilesListWidget.last_pid`: either the `Undefined`
sentinel it is seeded with (open_files.py line 55) or an int pid.  (The
update `self.last_pid = target_pid or self.last_pid` can never store `None`:
`None` is falsy, so the old value is kept.) -/
inductive LastPid
  | undef
  | lint (n : Int)
deriving DecidableEq, Repr

/-- Python equality `p == last` between an int and the `last_pid` slot.
Against the sentinel, `int.__eq__` returns `NotImplemented` and the reflected
`UndefinedType.__eq__(int)` is `False` (an int has no `_memory_address`
attribute), so the comparison is `False`. -/
def pyIntEqLast (p : Int) : LastPid → Bool
  | .undef => false
  | .lint m => p == m

/-- Embeds the `has_pid_changed` property (open_files.py lines 62-66):
`False` when `target_proc` is `None`, otherwise
`target_proc.pid != self.last_pid`.  The `target_proc` lookup itself can
raise (`sharedProcessProc`). -/
def has_pid_changed (live : List Int) (sel : SelVal) (last : LastPid) :
    Except PyErr Bool :=
  match sharedProcessProc live sel with
  | .error e => .error e
  | .ok none => .ok false
  | .ok (some p) => .ok (!pyIntEqLast p last)

/-- One iteration of `OpenFilesListWidget._refresh_loop` (open_files.py
lines 113-138).  `refreshResult` abstracts the outcome of
`await self._refresh()` (the refresh can itself raise, e.g. a stat failure
during row refresh).  Returns the outcome of the iteration — `ok b` with
`b = true` iff a refresh ran, or the propagated exception — paired with the
final value of `last_pid`. -/
def fileViewTick (live : List Int) (sel : SelVal) (last : LastPid)
    (lockHeld : Bool) (refreshResult : Except PyErr Unit) :
    Except PyErr Bool × LastPid :=
  match sharedProcessProc live sel with
  | .error e => (.error e, last)       -- `self.target_proc` raised
  | .ok target =>
    if lockHeld then (.ok false, last) -- `if self.__lock.locked(): continue`
    else if (match target with         -- `if target_proc and target_proc.pid == self.last_pid`
             | some p => pyIntEqLast p last
             | none => false) then
      (.ok false, last)
    else
      let changed := match target with -- `if self.has_pid_changed:`
        | none => false
        | some p => !pyIntEqLast p last
      match (if changed then refreshResult else .ok ()) with
      | .error e => (.error e, last)   -- exception propagates; `last_pid` stays stale
      | .ok _ =>
        -- `self.last_pid = target_pid or self.last_pid` — `None` and `0` are falsy
        let lastNew := match target with
          | some p => if p == 0 then last else .lint p
          | none => last
        (.ok changed, lastNew)

/-! ### File view rows (`open_files.py` lines 14-31 and 157-164) -/

/-- A file handle as enumerated by `proc.open_files()`: its path, its file
descriptor, and the result a later `os.stat(path)` would give — `none` when
the underlying file has vanished, so that the stat raises
`FileNotFoundError`. -/
structure PFile where
  path : String
  fd : Int
  statSize : Option Nat
deriving DecidableEq, Repr

/-- Embeds `File._filesize` (open_files.py lines 23-26): a direct
`os.stat(self.path).st_size`, raising when the file no longer exists. -/
def File_filesize (f : PFile) : Except PyErr Nat :=
  match f.statSize with
  | some n => .ok n
  | none => .error .fileNotFound

/-- Result of `proc.open_files()` for the selected process. -/
inductive ListFilesResult
  | ok (files : List PFile)
  | accessDenied
  | noSuchProcess
deriving Repr

/-- Embeds the `open_files` property (open_files.py lines 68-87): `[]` when
there is no selection; `psutil.AccessDenied` and `psutil.NoSuchProcess`
raised by the enumeration are swallowed (`except ...: pass`), yielding `[]`;
but the `target_proc` lookup itself happens before the `try` block, so its
`NoSuchProcess` propagates. -/
def open_files (live : List Int) (sel : SelVal)
    (enum : Int → ListFilesResult) : Except PyErr (List PFile) :=
  match sharedProcessProc live sel with
  | .error e => .error e
  | .ok none => .ok []
  | .ok (some p) =>
    match enum p with
    | .ok fs => .ok fs
    | .accessDenied => .ok []
    | .noSuchProcess => .ok []

/-- A row added to the file table: `add_row(fd, fp, fs)` with `fd` the file
descriptor as a string, `fp` the path with spaces replaced, and the size
cell (the human formatting `bytes2human` is an injective external rendering
of the byte count; the count itself is kept here). -/
structure DRow where
  fdCell : String
  pathCell : String
  sizeCell : Nat
deriving DecidableEq, Repr

/-- Embeds `file.path.replace(" ", "_")`: with a one-character pattern,
Python str.replace substitutes every occurrence character by character. -/
def pyReplaceSpaceUnderscore (s : String) : String :=
  String.mk (s.data.map (fun c => if c = ' ' then '_' else c))

/-- Embeds `OpenFilesListWidget.__refresh_rows` (open_files.py lines
157-164): for each enumerated file build the row
`(str(file.fd), file.path.replace(" ", "_"), file.filesize)`; the per-row
`filesize` stat can raise, and the exception propagates to the caller
(rows added before the failing one are not observable then — the raised
exception is the whole result). -/
def refreshRowsFiles : List PFile → Except PyErr (List DRow)
  | [] => .ok []
  | f :: fs =>
    match File_filesize f with
    | .error e => .error e
    | .ok n =>
      match refreshRowsFiles fs with
      | .error e => .error e
      | .ok rows => .ok (⟨toString f.fd, pyReplaceSpaceUnderscore f.path, n⟩ :: rows)

/-! ### Process view refresh (`process_list.py` lines 155-171 and
`main.py` lines 137-149) -/

/-- State of the process table that the refresh manipulates: its rows (pids),
the cursor row, and whether columns have been built. -/
structure ProcTable where
  rows : List Int
  cursor : Nat
  hasColumns : Bool
deriving DecidableEq, Repr

/-- The textual `DataTable.clear()` call: removes every row and resets the
cursor to the origin. -/
def clearTable (t : ProcTable) : ProcTable :=
  { t with rows := [], cursor := 0 }

/-- Embeds `__refresh_columns`: columns are rebuilt only when
`self.has_size_changed or not self.columns`. -/
def refreshColumns (geomChanged : Bool) (t : ProcTable) : ProcTable :=
  if geomChanged || !t.hasColumns then { t with hasColumns := true } else t

/-- Embeds `_refresh` of `widgets/process_list.py` (lines 155-171):
`old_pid = self.proc_pid` is read BEFORE `self.clear()`; then columns and
rows are refreshed (`newRows` abstracts the `list_processes` snapshot), and
when `remember_cursor_position and old_pid is not None` the cursor is
restored with `_move_cursor_to_closet_pid`. -/
def refreshWidgetsVersion (geomChanged remember : Bool) (newRows : List Int)
    (t : ProcTable) : Except PyErr ProcTable :=
  let oldPid := procPid t.rows t.cursor
  let t1 := clearTable t
  let t2 := refreshColumns geomChanged t1
  let t3 := { t2 with rows := newRows }
  match remember, oldPid with
  | true, some p =>
    match _move_cursor_to_closet_pid t3.rows p t3.cursor with
    | .ok c => .ok { t3 with cursor := c }
    | .error e => .error e
  | _, _ => .ok t3

/-- Embeds `_refresh` of `main.py` (lines 137-149): identical except that
`self.clear()` runs BEFORE `old_pid = self.proc_pid`, so `old_pid` is read
from the already-emptied table. -/
def refreshMainVersion (geomChanged remember : Bool) (newRows : List Int)
    (t : ProcTable) : Except PyErr ProcTable :=
  let t1 := clearTable t
  let oldPid := procPid t1.rows t1.cursor
  let t2 := refreshColumns geomChanged t1
  let t3 := { t2 with rows := newRows }
  match remember, oldPid with
  | true, some p =>
    match _move_cursor_to_closet_pid t3.rows p t3.cursor with
    | .ok c => .ok { t3 with cursor := c }
    | .error e => .error e
  | _, _ => .ok t3

/-! ### The `Undefined` sentinel equality (`util.py` lines 30-67) -/

/-- The id of the `UndefinedType` singleton instance, stored by `__new__`
into the class attribute `_memory_address`. -/
def sentinelMemAddr : Nat := 1

/-- A universe of Python values the sentinel can be compared against:
`None`, ints, the `Undefined` singleton itself, the `UndefinedType` class
object, and an arbitrary object without a `_memory_address` attribute. -/
inductive PyVal
  | pyNone
  | pyInt (n : Int)
  | undefinedObj
  | undefinedTypeClass
  | plainObj
deriving DecidableEq, Repr

/-- The `_memory_address` attribute visible on each value, if any.  The
singleton instance reads the class attribute (instances never get their own
copy: `__new__` writes `cls._memory_address`), and the class object itself
carries that same attribute. -/
def memAddrAttr : PyVal → Option Nat
  | .undefinedObj => some sentinelMemAddr
  | .undefinedTypeClass => some sentinelMemAddr
  | _ => none

/-- Embeds `UndefinedType.__eq__` (util.py lines 60-64):
`hasattr(other, "_memory_address") and self._memory_address ==
other._memory_address`. -/
def undefinedEq (other : PyVal) : Bool :=
  match memAddrAttr other with
  | some a => sentinelMemAddr == a
  | none => false

end ProcExplorer

namespace ProcExplorer

/-! ### Helper lemmas about the hill climb -/

/-- On a non-empty table `proc_pid` is just the row lookup. -/
theorem procPid_eq_get? (rows : List Int) (cursor : Nat) (h : rows ≠ []) :
    procPid rows cursor = rows.get? cursor := by
  cases rows with
  | nil => exact absurd rfl h
  | cons a l => rfl

/-- Unfolding one loop iteration whose current pid is not the target. -/
theorem moveLoop_succ_of (rows : List Int) (pid : Int) (cursor fuel : Nat) (c c' : Int)
    (hc : procPid rows cursor = some c) (hne : c ≠ pid)
    (hc' : procPid rows (stepRow rows.length cursor (moveUp c pid)) = some c') :
    moveLoop rows pid cursor (fuel + 1) =
      if pyAbs (c - pid) ≤ pyAbs (c' - pid)
      then .ok (stepRow rows.length cursor (moveUp c pid))
      else moveLoop rows pid (stepRow rows.length cursor (moveUp c pid)) fuel := by
  simp only [moveLoop, hc, hc', hne, if_false]

/-- The loop exits at once when the cursor already sits on the target pid. -/
theorem moveLoop_stop (rows : List Int) (pid : Int) (cursor fuel : Nat)
    (hc : procPid rows cursor = some pid) :
    moveLoop rows pid cursor (fuel + 1) = .ok cursor := by
  simp [moveLoop, hc]

/-- In a strictly ascending row list, pids grow with the row index. -/
theorem sorted_get?_lt (rows : List Int) (hs : List.Pairwise (· < ·) rows)
    (i j : Nat) (a b : Int) (ha : rows.get? i = some a) (hb : rows.get? j = some b)
    (hij : i < j) : a < b := by
  have hi := (List.get?_eq_some.mp ha).1
  have hj := (List.get?_eq_some.mp hb).1
  have := List.pairwise_iff_get.mp hs ⟨i, hi⟩ ⟨j, hj⟩ hij
  rw [List.get?_eq_get hi] at ha
  rw [List.get?_eq_get hj] at hb
  injection ha with ha; injection hb with hb
  omega

/-- In a strictly ascending row list a pid occurs at one index only. -/
theorem sorted_index_unique (rows : List Int) (hs : List.Pairwise (· < ·) rows)
    (i j : Nat) (a : Int) (ha : rows.get? i = some a) (hb : rows.get? j = some a) :
    i = j := by
  rcases Nat.lt_trichotomy i j with h | h | h
  · exact absurd (sorted_get?_lt rows hs i j a a ha hb h) (lt_irrefl a)
  · exact h
  · exact absurd (sorted_get?_lt rows hs j i a a hb ha h) (lt_irrefl a)

/-- Main invariant of the hill climb on a strictly ascending, nonnegative
table that contains the target: with fuel exceeding the current distance the
loop ends exactly on the target row. -/
theorem moveLoop_reaches (rows : List Int) (pid : Int)
    (hs : List.Pairwise (· < ·) rows)
    (hn : ∀ x ∈ rows, 0 ≤ x)
    (j : Nat) (hj : rows.get? j = some pid) :
    ∀ fuel cursor c, rows.get? cursor = some c → (pyAbs (c - pid)).toNat < fuel →
      moveLoop rows pid cursor fuel = .ok j := by
  have hne : rows ≠ [] := by
    intro h; rw [h] at hj; simp at hj
  have hjlen : j < rows.length := (List.get?_eq_some.mp hj).1
  have hpid0 : 0 ≤ pid := hn pid (List.get?_mem hj)
  intro fuel
  induction fuel with
  | zero => intro cursor c _ hlt; omega
  | succ f ih =>
    intro cursor c hc hlt
    have hclen : cursor < rows.length := (List.get?_eq_some.mp hc).1
    have hcp : procPid rows cursor = some c := by
      rw [procPid_eq_get? rows cursor hne]; exact hc
    rcases eq_or_ne c pid with hceq | hcne
    · have : cursor = j := sorted_index_unique rows hs cursor j pid (hceq ▸ hc) hj
      rw [moveLoop_stop rows pid cursor f (hceq ▸ hcp), this]
    · rcases Int.lt_or_lt_of_ne hcne with hlt2 | hlt2
      · -- current pid below the target: the cursor is above row j and moves down
        have hcj : cursor < j := by
          rcases Nat.lt_trichotomy cursor j with h | h | h
          · exact h
          · exact absurd (h ▸ hc) (by rw [hj]; intro hh; injection hh with hh; omega)
          · exact absurd (sorted_get?_lt rows hs j cursor pid c hj hc h) (by omega)
        have hup : moveUp c pid = false := by
          simp [moveUp]; omega
        have hstep : stepRow rows.length cursor (moveUp c pid) = cursor + 1 := by
          rw [hup]; simp [stepRow]; omega
        obtain ⟨c', hc'⟩ : ∃ c', rows.get? (cursor + 1) = some c' := by
          have : cursor + 1 < rows.length := by omega
          exact ⟨rows.get ⟨cursor + 1, this⟩, List.get?_eq_get this⟩
        have hcp' : procPid rows (stepRow rows.length cursor (moveUp c pid)) = some c' := by
          rw [hstep, procPid_eq_get? rows _ hne]; exact hc'
        have hcc' : c < c' := sorted_get?_lt rows hs cursor (cursor + 1) c c' hc hc' (by omega)
        have hc'pid : c' ≤ pid := by
          rcases eq_or_ne (cursor + 1) j with h | h
          · rw [h] at hc'; rw [hj] at hc'; injection hc' with hc'; omega
          · have : cursor + 1 < j := by omega
            have := sorted_get?_lt rows hs (cursor + 1) j c' pid hc' hj this
            omega
        have habs : pyAbs (c - pid) = pid - c := by simp [pyAbs]; omega
        have habs' : pyAbs (c' - pid) = pid - c' := by simp [pyAbs]; omega
        rw [moveLoop_succ_of rows pid cursor f c c' hcp hcne hcp',
          if_neg (by rw [habs, habs']; omega), hstep]
        exact ih (cursor + 1) c' hc' (by rw [habs'] ; rw [habs] at hlt; omega)
      · -- current pid above the target: the cursor is below row j and moves up
        have hcj : j < cursor := by
          rcases Nat.lt_trichotomy cursor j with h | h | h
          · exact absurd (sorted_get?_lt rows hs cursor j c pid hc hj h) (by omega)
          · exact absurd (h ▸ hc) (by rw [hj]; intro hh; injection hh with hh; omega)
          · exact h
        have hup : moveUp c pid = true := by
          simp [moveUp]; omega
        have hstep : stepRow rows.length cursor (moveUp c pid) = cursor - 1 := by
          rw [hup]; simp [stepRow]
        obtain ⟨c', hc'⟩ : ∃ c', rows.get? (cursor - 1) = some c' := by
          have : cursor - 1 < rows.length := by omega
          exact ⟨rows.get ⟨cursor - 1, this⟩, List.get?_eq_get this⟩
        have hcp' : procPid rows (stepRow rows.length cursor (moveUp c pid)) = some c' := by
          rw [hstep, procPid_eq_get? rows _ hne]; exact hc'
        have hcc' : c' < c := sorted_get?_lt rows hs (cursor - 1) cursor c' c hc' hc (by omega)
        have hc'pid : pid ≤ c' := by
          rcases eq_or_ne (cursor - 1) j with h | h
          · rw [h] at hc'; rw [hj] at hc'; injection hc' with hc'; omega
          · have : j < cursor - 1 := by omega
            have := sorted_get?_lt rows hs j (cursor - 1) pid c' hj hc' this
            omega
        have habs : pyAbs (c - pid) = c - pid := by simp [pyAbs]; omega
        have habs' : pyAbs (c' - pid) = c' - pid := by simp [pyAbs]; omega
        rw [moveLoop_succ_of rows pid cursor f c c' hcp hcne hcp',
          if_neg (by rw [habs, habs']; omega), hstep]
        exact ih (cursor - 1) c' hc' (by rw [habs'] ; rw [habs] at hlt; omega)

end ProcExplorer

namespace ProcExplorer

/-! ### Claim theorems -/

/-- C1 counterexample.  Scenario B: rows with pids `[10, 30]`, cursor on
row 0, target pid 20.  The step to row 1 (pid 30) does not decrease the
distance (10 vs 10), and the algorithm halts with the cursor on row 1 — not
on row 0 as the claim states: the `break` runs after `move_cursor`, and
nothing moves the cursor back. -/
theorem C1_scenarioB_counterexample :
    _move_cursor_to_closet_pid [10, 30] 20 0 = Except.ok 1 ∧
    _move_cursor_to_closet_pid [10, 30] 20 0 ≠ Except.ok 0 := by decide

/-- C1 (amended): when a step produces a pid-distance that did not strictly
decrease, the algorithm stops and the cursor ends on the row REACHED BY that
non-improving step (the row after the move), not on the row it occupied
before it.  In Scenario B restoration halts with the cursor on row 1
(pid 30). -/
theorem C1_halts_on_row_after_non_improving_step
    (rows : List Int) (pid : Int) (cursor : Nat) (c c' : Int)
    (hc : procPid rows cursor = some c) (hcne : c ≠ pid)
    (hc' : procPid rows (stepRow rows.length cursor (moveUp c pid)) = some c')
    (hd : pyAbs (c - pid) ≤ pyAbs (c' - pid)) :
    _move_cursor_to_closet_pid rows pid cursor
      = .ok (stepRow rows.length cursor (moveUp c pid)) := by
  unfold _move_cursor_to_closet_pid moveFuel
  rw [hc, moveLoop_succ_of rows pid cursor _ c c' hc hcne hc', if_pos hd]

/-- C1 witness: the amended statement instantiated on Scenario B. -/
theorem C1_witness :
    _move_cursor_to_closet_pid [10, 30] 20 0 = Except.ok 1 :=
  C1_halts_on_row_after_non_improving_step [10, 30] 20 0 10 30 rfl
    (by decide) rfl (by decide)

/-- C2 counterexample.  Rows with pids `[10, 30, 20]` (pid 20 present at
row 2), cursor starting at row 0: the hill climb moves to row 1 (pid 30),
the distance does not decrease, and restoration halts on row 1 — it never
reaches the row whose pid is exactly 20.  There is no exact-match scan in
the code; the claim fails on unsorted tables. -/
theorem C2_unsorted_counterexample :
    _move_cursor_to_closet_pid [10, 30, 20] 20 0 = Except.ok 1 ∧
    ([10, 30, 20] : List Int).get? 2 = some 20 ∧
    ([10, 30, 20] : List Int).get? 1 = some 30 ∧ (30 : Int) ≠ 20 := by decide

/-- C2 (amended): for a non-empty table whose pids are strictly ascending
and nonnegative (the order the system assumes of the OS enumeration), for
every starting cursor row, if some row carries pid exactly `pid` then
cursor-restoration terminates with the cursor on that row. -/
theorem C2_sorted_restore_exact
    (rows : List Int) (pid : Int) (cursor j : Nat)
    (hs : List.Pairwise (· < ·) rows)
    (hn : ∀ x ∈ rows, 0 ≤ x)
    (hcur : cursor < rows.length)
    (hj : rows.get? j = some pid) :
    _move_cursor_to_closet_pid rows pid cursor = .ok j := by
  have hne : rows ≠ [] := List.ne_nil_of_length_pos (by omega)
  obtain ⟨c, hc⟩ : ∃ c, rows.get? cursor = some c :=
    ⟨rows.get ⟨cursor, hcur⟩, List.get?_eq_get hcur⟩
  have hcp : procPid rows cursor = some c := by
    rw [procPid_eq_get? rows cursor hne]; exact hc
  unfold _move_cursor_to_closet_pid moveFuel
  rw [hcp]
  exact moveLoop_reaches rows pid hs hn j hj _ cursor c hc (Nat.lt_succ_self _)

/-- C2 witness: Scenario A — rows `[10, 20, 30]`, previous pid 20 present,
cursor starting at row 0; restoration ends on row 1, the row of pid 20. -/
theorem C2_witness :
    ([10, 20, 30] : List Int).get? 1 = some 20 ∧
    _move_cursor_to_closet_pid [10, 20, 30] 20 0 = Except.ok 1 :=
  ⟨rfl, C2_sorted_restore_exact [10, 20, 30] 20 0 1 (by decide) (by decide)
    (by decide) rfl⟩

/-- C3: reading the shared selection when the stored pid (42) names no live
process does not resolve to "no selection" — `psutil.Process(pid=42)` inside
`SharedProcess.proc` raises `NoSuchProcess`, and the exception reaches the
reader: one file-view loop iteration propagates it instead of refreshing. -/
theorem C3_dead_pid_lookup_raises :
    sharedProcessProc [] (SelVal.vInt 42) = Except.error PyErr.noSuchProcess ∧
    fileViewTick [] (SelVal.vInt 42) LastPid.undef false (Except.ok ())
      = (Except.error PyErr.noSuchProcess, LastPid.undef) := by decide

/-- C4 counterexample: the first value written being an explicit `None`
("no process focused") does NOT trigger a refresh — `target_proc` is `None`,
so `has_pid_changed` returns `False` and the loop iteration refreshes
nothing. -/
theorem C4_none_write_counterexample :
    has_pid_changed [] SelVal.vNone LastPid.undef = Except.ok false ∧
    fileViewTick [] SelVal.vNone LastPid.undef false (Except.ok ())
      = (Except.ok false, LastPid.undef) := by decide

/-- C4 (amended): the last-observed pid is seeded to the `Unset` sentinel,
so the first INTEGER pid written to the shared selection that names a live
process — including pid 0 — differs from last-observed and triggers the
file view first refresh on its next tick; an explicit `None` write,
however, does not trigger any refresh. -/
theorem C4_first_int_write_triggers (p : Int) (live : List Int) (hp : p ∈ live) :
    has_pid_changed live (SelVal.vInt p) LastPid.undef = Except.ok true ∧
    (fileViewTick live (SelVal.vInt p) LastPid.undef false (Except.ok ())).1
      = Except.ok true := by
  have hlook : sharedProcessProc live (SelVal.vInt p) = .ok (some p) := by
    simp [sharedProcessProc, hp]
  constructor
  · simp [has_pid_changed, hlook, pyIntEqLast]
  · simp [fileViewTick, hlook, pyIntEqLast]

/-- C4 witness: the first write of pid 0 (alive) triggers the refresh. -/
theorem C4_witness :
    (0 : Int) ∈ [(0 : Int)] ∧
    has_pid_changed [0] (SelVal.vInt 0) LastPid.undef = Except.ok true :=
  ⟨by decide, (C4_first_int_write_triggers 0 [0] (by decide)).1⟩

/-- C5 counterexample: a single enumerated file whose backing path has
vanished makes the row refresh raise `FileNotFoundError` from the
per-row `os.stat` — the failure propagates to the caller instead of being
recovered inside the view. -/
theorem C5_stat_failure_counterexample :
    refreshRowsFiles [⟨"/tmp/deleted", 3, none⟩] = Except.error PyErr.fileNotFound := rfl

/-- C5 (amended): `Vanished` and `AccessDenied` raised by the file-handle
enumeration are recovered locally (the view shows an empty list), but a
`Vanished` file whose per-row size stat fails during the file-view row
refresh DOES propagate to the caller as a raised error. -/
theorem C5_enum_recovered_stat_propagates :
    (∀ (live : List Int) (sel : SelVal) (p : Int) (enum : Int → ListFilesResult),
       sharedProcessProc live sel = Except.ok (some p) →
       (enum p = ListFilesResult.accessDenied ∨ enum p = ListFilesResult.noSuchProcess) →
       open_files live sel enum = Except.ok []) ∧
    refreshRowsFiles [⟨"/tmp/deleted", 3, none⟩] = Except.error PyErr.fileNotFound := by
  constructor
  · intro live sel p enum hlook henum
    rcases henum with h | h <;> simp [open_files, hlook, h]
  · rfl

/-- C5 witness: an `AccessDenied` enumeration for live pid 7 yields an empty
file list, no error. -/
theorem C5_witness :
    sharedProcessProc [7] (SelVal.vInt 7) = Except.ok (some 7) ∧
    open_files [7] (SelVal.vInt 7) (fun _ => ListFilesResult.accessDenied)
      = Except.ok [] :=
  ⟨by decide, C5_enum_recovered_stat_propagates.1 [7] (SelVal.vInt 7) 7
    (fun _ => ListFilesResult.accessDenied) (by decide) (Or.inl rfl)⟩

/-- C6 counterexample: a refresh triggered by selection change to pid 0
(alive) runs, but the closing `self.last_pid = target_pid or self.last_pid`
treats 0 as falsy and keeps the stale sentinel: after the tick last-observed
is still `Unset`, not 0. -/
theorem C6_pid0_counterexample :
    fileViewTick [0] (SelVal.vInt 0) LastPid.undef false (Except.ok ())
      = (Except.ok true, LastPid.undef) ∧
    LastPid.undef ≠ LastPid.lint 0 := by decide

/-- C6 (amended): for a refresh triggered by a selection change to a live
pid `p ≠ 0`, last-observed is updated only after the refresh completes and
then equals `p`; when the refresh raises, the exception propagates and
last-observed keeps its stale value.  For `p = 0` the closing
`target_pid or self.last_pid` keeps the stale value even after a successful
refresh. -/
theorem C6_last_pid_updated_after_refresh (live : List Int) (p : Int)
    (last : LastPid) (e : PyErr) (hp : p ∈ live) (hp0 : p ≠ 0)
    (hchanged : pyIntEqLast p last = false) :
    fileViewTick live (SelVal.vInt p) last false (Except.ok ())
      = (Except.ok true, LastPid.lint p) ∧
    fileViewTick live (SelVal.vInt p) last false (Except.error e)
      = (Except.error e, last) := by
  have hlook : sharedProcessProc live (SelVal.vInt p) = .ok (some p) := by
    simp [sharedProcessProc, hp]
  constructor <;> simp [fileViewTick, hlook, hchanged, hp0]

/-- C6 witness: selection change to live pid 5 with last-observed `Unset`:
the tick refreshes and records 5 as last-observed. -/
theorem C6_witness :
    (5 : Int) ∈ [(5 : Int)] ∧ (5 : Int) ≠ 0 ∧
    pyIntEqLast 5 LastPid.undef = false ∧
    fileViewTick [5] (SelVal.vInt 5) LastPid.undef false (Except.ok ())
      = (Except.ok true, LastPid.lint 5) :=
  ⟨by decide, by decide, rfl,
    (C6_last_pid_updated_after_refresh [5] 5 LastPid.undef PyErr.typeError
      (by decide) (by decide) rfl).1⟩

/-- C7: the refresh of `widgets/process_list.py` records the cursor pid
before clearing and restores it (cursor back on row 1, pid 20), but the
refresh of `main.py` — the widget the app actually composes — clears the
rows BEFORE reading `old_pid`, so `old_pid` is always `None`, restoration
never runs, and the pre-refresh selection is silently forgotten (cursor
resets to row 0). -/
theorem C7_main_refresh_forgets_selection :
    refreshWidgetsVersion false true [10, 20, 30] ⟨[10, 20, 30], 1, true⟩
      = Except.ok ⟨[10, 20, 30], 1, true⟩ ∧
    refreshMainVersion false true [10, 20, 30] ⟨[10, 20, 30], 1, true⟩
      = Except.ok ⟨[10, 20, 30], 0, true⟩ ∧
    (0 : Nat) ≠ 1 := by decide

/-- C8: on an empty table, cursor-restoration is NOT a harmless no-op: the
`while self.proc_pid != pid` condition is `True` (`None != 20`), the body
computes `self.proc_pid - pid` with `proc_pid = None`, and the call raises
`TypeError` — as does `__distance_from_pid` itself. -/
theorem C8_empty_table_restoration_raises :
    _move_cursor_to_closet_pid [] 20 0 = Except.error PyErr.typeError ∧
    distance_from_pid [] 0 20 = Except.error PyErr.typeError := by decide

/-- C9 counterexample: the `UndefinedType` CLASS object is a non-sentinel
value, yet comparing `Unset` against it returns `True`: `__new__` stores the
singleton id in the class attribute `_memory_address`, which the class
object itself exposes, so `hasattr` and the address comparison both
succeed. -/
theorem C9_class_object_counterexample :
    undefinedEq PyVal.undefinedTypeClass = true ∧
    PyVal.undefinedTypeClass ≠ PyVal.undefinedObj := by decide

/-- C9 (amended): `Unset` equality returns false against `None`, against
every integer (including 0), and against any object without a matching
`_memory_address` attribute; it returns true against `Unset` itself — but
also against the `UndefinedType` class object, which carries the same
`_memory_address` class attribute, so "true only against itself" fails. -/
theorem C9_sentinel_distinctness :
    (∀ n : Int, undefinedEq (PyVal.pyInt n) = false) ∧
    undefinedEq PyVal.pyNone = false ∧
    undefinedEq PyVal.plainObj = false ∧
    undefinedEq PyVal.undefinedObj = true ∧
    undefinedEq PyVal.undefinedTypeClass = true :=
  ⟨fun _ => rfl, rfl, rfl, rfl, rfl⟩

/-- C10: every row the file view adds during a (successful) row refresh has
a path cell equal to the file path with every space replaced by an
underscore; in particular for a path containing a space the displayed path
differs from the true path ("a b" is shown as "a_b"). -/
theorem C10_path_cell_replaces_spaces :
    (∀ (files : List PFile) (rows : List DRow),
       refreshRowsFiles files = Except.ok rows →
       rows.map DRow.pathCell
         = files.map (fun f => pyReplaceSpaceUnderscore f.path)) ∧
    pyReplaceSpaceUnderscore "a b" = "a_b" ∧ "a_b" ≠ "a b" := by
  refine ⟨?_, by decide, by decide⟩
  intro files
  induction files with
  | nil =>
    intro rows h
    injection h with h
    rw [← h]; rfl
  | cons f fs ih =>
    intro rows h
    unfold refreshRowsFiles at h
    cases hf : File_filesize f with
    | error e => rw [hf] at h; exact absurd h (by simp)
    | ok n =>
      rw [hf] at h
      cases hr : refreshRowsFiles fs with
      | error e => rw [hr] at h; exact absurd h (by simp)
      | ok rs =>
        rw [hr] at h
        injection h with h
        rw [← h]
        simp only [List.map]
        rw [ih rs hr]

/-- C10 witness: one open file at path "a b" with fd 3 and size 5 is
rendered as the row `("3", "a_b", 5)`. -/
theorem C10_witness :
    refreshRowsFiles [⟨"a b", 3, some 5⟩] = Except.ok [⟨"3", "a_b", 5⟩] ∧
    ([⟨"3", "a_b", 5⟩] : List DRow).map DRow.pathCell
      = ([⟨"a b", 3, some 5⟩] : List PFile).map
          (fun f => pyReplaceSpaceUnderscore f.path) :=
  ⟨by decide, C10_path_cell_replaces_spaces.1 [⟨"a b", 3, some 5⟩]
    [⟨"3", "a_b", 5⟩] (by decide)⟩

end ProcExplorer
